import Mathlib

/-!
Shallow embedding of the analysis-and-decision pipeline of
`src/Robinhood_AI_Trading.py` (class `AIStockAdvisorSystem` and the
surrounding Slack entry points), together with theorems settling the
frozen claims about it.

Conventions of the embedding:
* Prices and indicator values are exact rationals `ℚ`; pandas `NaN`
  (missing / undefined rolling-window values) is `Option.none` or the
  explicit cell marker `CellVal.undef`.
* Python `round(x, 2)` is round-half-to-even at two decimals
  (`round2`), the tie-breaking rule Python documents for `round`.
* The Bollinger standard-deviation column is the square root of an
  exact rational variance; since that value is irrational in general,
  a cell stores the radicand symbolically (`CellVal.qsqrt b c a`
  denotes the real number `b + c * Real.sqrt a`) so that every
  definition stays computable, and theorems interpret the cell with
  `Real.sqrt`.
* Network fetches are inputs of type `Except String α` collected in an
  environment record `Env`; a function of the source that catches
  exceptions is a total Lean function of that input, and one that does
  not catch is a function returning `Except`.
-/

namespace Robinhood

/-- Python `round(x, 2)` tie-to-even integer rounding of `100 * x`. -/
def roundHalfEven (q : ℚ) : ℤ :=
  let f := ⌊q⌋
  let r := q - (f : ℚ)
  if r < 1/2 then f
  else if 1/2 < r then f + 1
  else if f % 2 = 0 then f else f + 1

/-- Python `round(x, 2)`: round to two decimal places, ties to even. -/
def round2 (q : ℚ) : ℚ := (roundHalfEven (q * 100) : ℚ) / 100

/-- Arithmetic mean of a list (pandas `rolling(...).mean()` applied to
one full window). -/
def listMean (xs : List ℚ) : ℚ := xs.sum / (xs.length : ℚ)

/-- Sample variance with `ddof = 1`, the default of pandas
`rolling(...).std()` (which then takes its square root). -/
def sampleVar (xs : List ℚ) : ℚ :=
  ((xs.map (fun x => (x - listMean xs) ^ 2)).sum) / ((xs.length : ℚ) - 1)

/-- Modelled from the spec: "population-style rolling standard
deviation" — the population variance (divisor `n`, not `n - 1`), whose
square root the spec calls the STD column.  This definition follows the
spec's words and exists to be compared with `sampleVar`, which is what
the source's pandas call computes. -/
def popVar (xs : List ℚ) : ℚ :=
  ((xs.map (fun x => (x - listMean xs) ^ 2)).sum) / (xs.length : ℚ)

/-- The window of the last `w` values ending at row `i` (inclusive),
defined when `i + 1 ≥ w`. -/
def windowAt (xs : List ℚ) (w i : Nat) : List ℚ :=
  (xs.take (i + 1)).drop (i + 1 - w)

/-- pandas `Series.rolling(window=w).apply(f)`: row `i` holds
`f` of the trailing `w`-window when at least `w` observations exist,
and `NaN` (`none`) otherwise. -/
def rollingApply (f : List ℚ → ℚ) (w : Nat) (xs : List ℚ) : List (Option ℚ) :=
  (List.range xs.length).map (fun i => if w ≤ i + 1 then some (f (windowAt xs w i)) else none)

/-- pandas `Series.rolling(window=w).mean()`. -/
def rollingMean (w : Nat) (xs : List ℚ) : List (Option ℚ) := rollingApply listMean w xs

/-- pandas `Series.rolling(window=w).std()` squared: the rolling sample
variance (`ddof = 1`).  The source's STD column is its square root. -/
def rollingVar (w : Nat) (xs : List ℚ) : List (Option ℚ) := rollingApply sampleVar w xs

/-- A cell of an indicator column: pandas `NaN`, an exact rational, or
the exact real `b + c * √a` (used by Bollinger STD and bands, whose
values are irrational in general). -/
inductive CellVal
  | undef : CellVal
  | q : ℚ → CellVal
  | qsqrt : ℚ → ℚ → ℚ → CellVal
  deriving DecidableEq, Repr

/-- A normalized table (`_process_df` output): timestamp index plus the
five canonical columns, and the indicator columns appended later, each
held as a named list of cells. -/
structure DataFrame where
  dates : List String
  Open : List ℚ
  Close : List ℚ
  High : List ℚ
  Low : List ℚ
  Volume : List ℤ
  indicators : List (String × List CellVal)
  deriving DecidableEq, Repr

/-- `_calculate_bollinger_bands` (window 20, 2 standard deviations):
appends `SMA`, `STD`, `Upper_Band`, `Lower_Band`. `STD` at a full
window `ws` is `√(sampleVar ws)`, stored as `qsqrt 0 1 (sampleVar ws)`;
`Upper_Band = SMA + STD * 2` is `qsqrt (listMean ws) 2 (sampleVar ws)`
and `Lower_Band = SMA - STD * 2` likewise with coefficient `-2`. -/
def calculate_bollinger_bands (df : DataFrame) (window : Nat := 20) : DataFrame :=
  let cells := fun (b c : ℚ → ℚ) =>
    (List.range df.Close.length).map (fun i =>
      if window ≤ i + 1 then
        let ws := windowAt df.Close window i
        CellVal.qsqrt (b (listMean ws)) (c (sampleVar ws)) (sampleVar ws)
      else CellVal.undef)
  let smaCol := (rollingMean window df.Close).map
    (fun o => match o with | some v => CellVal.q v | none => CellVal.undef)
  let stdCol := cells (fun _ => 0) (fun _ => 1)
  let upperCol := cells (fun m => m) (fun _ => 2)
  let lowerCol := cells (fun m => m) (fun _ => -2)
  { df with indicators := df.indicators ++
      [("SMA", smaCol), ("STD", stdCol), ("Upper_Band", upperCol), ("Lower_Band", lowerCol)] }

/-- `df['Close'].diff()` followed by `delta.where(delta > 0, 0)`:
row 0 has `delta = NaN`, and `NaN > 0` is `False` in pandas, so row 0
of the gain series is the replacement value `0`; later rows keep the
positive part of the day-over-day difference. -/
def gainSeries (close : List ℚ) : List ℚ :=
  (List.range close.length).map (fun i =>
    match i with
    | 0 => 0
    | j + 1 =>
      let d := close.getD (j + 1) 0 - close.getD j 0
      if 0 < d then d else 0)

/-- `(-delta.where(delta < 0, 0))`: row 0 is `0` for the same reason,
later rows hold the magnitude of a negative day-over-day difference. -/
def lossSeries (close : List ℚ) : List ℚ :=
  (List.range close.length).map (fun i =>
    match i with
    | 0 => 0
    | j + 1 =>
      let d := close.getD (j + 1) 0 - close.getD j 0
      if d < 0 then -d else 0)

/-- `_calculate_rsi` body applied at one row, given the rolling average
gain and loss there.  IEEE semantics of `rs = gain / loss` and
`100 - 100 / (1 + rs)`:
* `loss > 0`: an ordinary finite value;
* `loss = 0`, `gain > 0`: `rs = +inf`, so the RSI is exactly `100`;
* `loss = 0`, `gain = 0`: `rs = NaN` and the RSI cell is `NaN`. -/
def rsiOfAverages (gain loss : ℚ) : Option ℚ :=
  if 0 < loss then some (100 - 100 / (1 + gain / loss))
  else if 0 < gain then some 100
  else none

/-- The RSI column of `_calculate_rsi` (window 14): rolling means of
the gain and loss series combined pointwise by `rsiOfAverages`; rows
with fewer than 14 observations are `NaN`. -/
def rsiList (close : List ℚ) (window : Nat := 14) : List (Option ℚ) :=
  List.zipWith (fun g l =>
      match g, l with
      | some g, some l => rsiOfAverages g l
      | _, _ => none)
    (rollingMean window (gainSeries close)) (rollingMean window (lossSeries close))

/-- `_calculate_rsi`: appends the `RSI` column. -/
def calculate_rsi (df : DataFrame) (window : Nat := 14) : DataFrame :=
  { df with indicators := df.indicators ++
      [("RSI", (rsiList df.Close window).map
        (fun o => match o with | some v => CellVal.q v | none => CellVal.undef))] }

/-- Tail recursion of pandas `ewm(span, adjust=False).mean()`:
`y₀` is the accumulator and each new observation `z` updates it to
`(1 - α) * y + α * z`. -/
def ewmGo (α : ℚ) (y : ℚ) : List ℚ → List ℚ
  | [] => [y]
  | z :: zs => y :: ewmGo α ((1 - α) * y + α * z) zs

/-- pandas `ewm(span=s, adjust=False).mean()`: `α = 2 / (s + 1)` and
the recursion is seeded with the first observation. -/
def ewmMean (span : Nat) : List ℚ → List ℚ
  | [] => []
  | x :: xs => ewmGo (2 / ((span : ℚ) + 1)) x xs

/-- The MACD line of `_calculate_macd`: fast EMA minus slow EMA. -/
def macdLine (close : List ℚ) (fast slow : Nat) : List ℚ :=
  List.zipWith (fun a b => a - b) (ewmMean fast close) (ewmMean slow close)

/-- The signal line: EMA (span `signal`) of the MACD line. -/
def signalLine (close : List ℚ) (fast slow signal : Nat) : List ℚ :=
  ewmMean signal (macdLine close fast slow)

/-- The MACD histogram column: MACD minus signal, pointwise. -/
def macdHistogram (close : List ℚ) (fast slow signal : Nat) : List ℚ :=
  List.zipWith (fun a b => a - b) (macdLine close fast slow) (signalLine close fast slow signal)

/-- `_calculate_macd` (spans 12 / 26 / 9): appends `EMA_fast`,
`EMA_slow`, `MACD`, `Signal_Line`, `MACD_Histogram`. -/
def calculate_macd (df : DataFrame) (fast : Nat := 12) (slow : Nat := 26)
    (signal : Nat := 9) : DataFrame :=
  let qcol := fun (xs : List ℚ) => xs.map CellVal.q
  { df with indicators := df.indicators ++
      [("EMA_fast", qcol (ewmMean fast df.Close)),
       ("EMA_slow", qcol (ewmMean slow df.Close)),
       ("MACD", qcol (macdLine df.Close fast slow)),
       ("Signal_Line", qcol (signalLine df.Close fast slow signal)),
       ("MACD_Histogram", qcol (macdHistogram df.Close fast slow signal))] }

/-- `_calculate_moving_averages`: appends `MA_10`, `MA_20`, `MA_60`
(simple rolling means), applied to the monthly table only. -/
def calculate_moving_averages (df : DataFrame) : DataFrame :=
  let macol := fun (w : Nat) => (rollingMean w df.Close).map
    (fun o => match o with | some v => CellVal.q v | none => CellVal.undef)
  { df with indicators := df.indicators ++
      [("MA_10", macol 10), ("MA_20", macol 20), ("MA_60", macol 60)] }

/-- `_add_indicators`: Bollinger, RSI and MACD on both tables, then the
moving averages on the monthly table only. -/
def add_indicators (monthly_df daily_df : DataFrame) : DataFrame × DataFrame :=
  let m := calculate_macd (calculate_rsi (calculate_bollinger_bands monthly_df))
  let d := calculate_macd (calculate_rsi (calculate_bollinger_bands daily_df))
  (calculate_moving_averages m, d)

/-- The pydantic model `TradingDecision` (a parsed Decision Record). -/
structure TradingDecision where
  decision : String
  percentage : ℤ
  reason : String
  expected_next_day_price : ℚ
  deriving DecidableEq, Repr

/-- A JSON scalar, as far as the oracle response schema needs. -/
inductive JVal
  | jstr : String → JVal
  | jint : ℤ → JVal
  | jnum : ℚ → JVal
  | jnull : JVal
  deriving DecidableEq, Repr

/-- A JSON object: association list of keys and scalar values. -/
abbrev JObj := List (String × JVal)

/-- The enum of the `decision` property in the declared response
schema. -/
def decisionEnum : List String := ["BUY", "SELL", "HOLD"]

/-- The strict `json_schema` declared in `ai_stock_analysis` combined
with `TradingDecision.model_validate_json`: the four properties are all
required, no additional properties are permitted, `decision` must be
one of the three enum strings, `percentage` an integer,
`reason` a string and `expected_next_day_price` a number.  Note that no
clause relates `percentage` to `decision`. -/
def parseTradingDecision (o : JObj) : Option TradingDecision :=
  if o.all (fun kv =>
      ["decision", "percentage", "reason", "expected_next_day_price"].contains kv.1) then
    match o.lookup "decision", o.lookup "percentage", o.lookup "reason",
        o.lookup "expected_next_day_price" with
    | some (.jstr d), some (.jint p), some (.jstr r), some (.jnum q) =>
      if decisionEnum.contains d then some ⟨d, p, r, q⟩ else none
    | some (.jstr d), some (.jint p), some (.jstr r), some (.jint n) =>
      if decisionEnum.contains d then some ⟨d, p, r, (n : ℚ)⟩ else none
    | _, _, _, _ => none
  else none

/-- One headline item (title plus date text). -/
structure NewsItem where
  title : String
  date : String
  deriving DecidableEq, Repr

/-- A Fear and Greed Index snapshot as `get_fear_and_greed_index`
returns it. -/
structure FGI where
  value : ℚ
  description : String
  last_update : String
  deriving DecidableEq, Repr

/-- One row of the `ai_stock_analysis_records` table as
`_record_trading_decision` inserts it (the wall-clock `Time` column is
outside the model). -/
structure LedgerEntry where
  stock : String
  decision : String
  percentage : ℤ
  reason : String
  currentPrice : ℚ
  expectedNextDayPrice : ℚ
  expectedPriceDifference : ℚ
  deriving DecidableEq, Repr

/-- The dict argument of `_record_trading_decision`. -/
structure DecisionDict where
  Decision : String
  Percentage : ℤ
  Reason : String
  CurrentPrice : ℚ
  ExpectedNextDayPrice : ℚ
  deriving DecidableEq, Repr

/-- `_record_trading_decision`: derives
`ExpectedPriceDifference = round(ExpectedNextDayPrice - CurrentPrice, 2)`
from the dict it is handed and appends the row. -/
def record_trading_decision (stock : String) (d : DecisionDict) : LedgerEntry :=
  { stock := stock
    decision := d.Decision
    percentage := d.Percentage
    reason := d.Reason
    currentPrice := d.CurrentPrice
    expectedNextDayPrice := d.ExpectedNextDayPrice
    expectedPriceDifference := round2 (d.ExpectedNextDayPrice - d.CurrentPrice) }

/-- The per-run environment: the outcome each external fetch would
have, so that the control flow of `ai_stock_analysis` is a pure
function of it.  `monthly`/`daily` are the already-normalized tables
(`get_chart_data` applies no exception handling of its own). -/
structure Env where
  stock : String
  monthly : DataFrame
  daily : DataFrame
  googleFetch : Except String (List NewsItem)
  alphaFetch : Except String (List NewsItem)
  transcriptFetch : Except String String
  fgiFetch : Except String FGI
  priceFetch : Except String ℚ
  oracleFetch : Except String JObj
  translateFetch : Except String String

/-- `get_current_price`: rounds the fetched quote to 2 decimals; the
`try`/`except` turns any fetch error into `None`. -/
def get_current_price (f : Except String ℚ) : Option ℚ :=
  match f with
  | .ok p => some (round2 p)
  | .error _ => none

/-- `_get_news_from_google`: at most 5 items; the `try`/`except`
returns an empty list on any error. -/
def get_news_from_google (f : Except String (List NewsItem)) : List NewsItem :=
  match f with
  | .ok l => l.take 5
  | .error _ => []

/-- `_get_news_from_alpha_vantage`: at most 10 items; the
`try`/`except` returns an empty list on any error. -/
def get_news_from_alpha_vantage (f : Except String (List NewsItem)) : List NewsItem :=
  match f with
  | .ok l => l.take 10
  | .error _ => []

/-- `get_news`: both headline sources, each independently guarded. -/
def get_news (env : Env) : List NewsItem × List NewsItem :=
  (get_news_from_google env.googleFetch, get_news_from_alpha_vantage env.alphaFetch)

/-- `get_fear_and_greed_index` has no `try`/`except`: a fetch failure
propagates to the caller unchanged. -/
def get_fear_and_greed_index (f : Except String FGI) : Except String FGI := f

/-- `get_youtube_transcript`: the transcript text on success; on any
error the literal string `An error occurred: ` followed by the error
message (the run is not aborted). -/
def get_youtube_transcript (f : Except String String) : String :=
  match f with
  | .ok t => t
  | .error e => "An error occurred: " ++ e

/-- `_translate_to_korean`: translation result on success, the
original text unchanged on error. -/
def translate_to_korean (f : Except String String) (text : String) : String :=
  match f with
  | .ok t => t
  | .error _ => text

/-- `get_chart_data`: normalize both windows and add the indicators
(no exception handling of its own). -/
def get_chart_data (env : Env) : DataFrame × DataFrame :=
  add_indicators env.monthly env.daily

/-- The part of the system prompt before the transcript, ending with
the announcement of the trading-method text. -/
def promptIntro (currentPrice : ℚ) : String :=
  "You are an expert in Stock investing. Analyze the provided data including technical indicators, market data, recent news headlines, the Fear and Greed Index, YouTube video transcript, and the chart image. Current stock price: $"
    ++ toString currentPrice
    ++ ". Particularly important is to always refer to the trading method of Mark Minervini, a legendary stock investor. The trading method of Mark Minervini is as follows: "

/-- The part of the system prompt after the transcript: the response
instructions, including the request (not schema-enforced) that the
percentage be 1 to 100 for BUY or SELL and exactly 0 for HOLD. -/
def promptTail : String :=
  " Based on this trading method, analyze the current market situation and make a judgment by synthesizing it with the provided data. Respond with a decision (BUY, SELL, or HOLD), a percentage, a reason, and a prediction for the next day closing price. Ensure that the percentage is an integer between 1 and 100 for buy/sell decisions, and exactly 0 for hold decisions."

/-- The system message of the oracle request: the transcript text is
interpolated verbatim between intro and tail. -/
def buildSystemPrompt (currentPrice : ℚ) (yt : String) : String :=
  promptIntro currentPrice ++ yt ++ promptTail

/-- Observable side effects of one run, in order: the oracle request
(with its system prompt) and the ledger insert. -/
inductive Effect
  | oracleCall : String → Effect
  | ledgerWrite : LedgerEntry → Effect
  deriving DecidableEq, Repr

/-- A Python value in the tuple returned by `ai_stock_analysis`. -/
inductive PyValue
  | pyNone : PyValue
  | pyDecision : TradingDecision → PyValue
  | pyStr : String → PyValue
  | pyNews : List NewsItem → List NewsItem → PyValue
  | pyFgi : FGI → PyValue
  | pyPrice : ℚ → PyValue
  deriving DecidableEq, Repr

/-- `ai_stock_analysis`, step for step: chart data, news (guarded per
source), transcript (guarded), Fear and Greed Index (unguarded —
errors propagate), current price (guarded to `None`); abort with the
2-tuple `(None, None)` when the price is `None`; otherwise the oracle
call, strict-schema parsing (a failure is a fatal parse error),
translation (guarded) and the ledger insert, returning the 5-tuple
`(result, reason_kr, news, fgi, current_price)`.  The second component
of the result is the list of effects the run performed. -/
def ai_stock_analysis (env : Env) : Except String (List PyValue) × List Effect :=
  let _charts := get_chart_data env
  let news := get_news env
  let yt := get_youtube_transcript env.transcriptFetch
  match get_fear_and_greed_index env.fgiFetch with
  | .error e => (.error e, [])
  | .ok fgi =>
    match get_current_price env.priceFetch with
    | none => (.ok [PyValue.pyNone, PyValue.pyNone], [])
    | some cp =>
      let prompt := buildSystemPrompt cp yt
      match env.oracleFetch with
      | .error e => (.error e, [Effect.oracleCall prompt])
      | .ok obj =>
        match parseTradingDecision obj with
        | none => (.error "trading decision validation failed", [Effect.oracleCall prompt])
        | some result =>
          let reason_kr := translate_to_korean env.translateFetch result.reason
          let entry := record_trading_decision env.stock
            { Decision := result.decision
              Percentage := result.percentage
              Reason := result.reason
              CurrentPrice := round2 cp
              ExpectedNextDayPrice := round2 result.expected_next_day_price }
          (.ok [PyValue.pyDecision result, PyValue.pyStr reason_kr,
                PyValue.pyNews news.1 news.2, PyValue.pyFgi fgi, PyValue.pyPrice cp],
           [Effect.oracleCall prompt, Effect.ledgerWrite entry])

/-- The tuple unpacking
`result, reason_kr, news, fgi, current_price = analyzer.ai_stock_analysis()`
in `process_trading`: succeeds exactly on a 5-tuple, raises (here:
`none`) on any other arity. -/
def unpack5 (l : List PyValue) :
    Option (PyValue × PyValue × PyValue × PyValue × PyValue) :=
  match l with
  | [a, b, c, d, e] => some (a, b, c, d, e)
  | _ => none

/-- A response object with the four schema fields in their usual
shapes. -/
def mkObj (d : String) (p : ℤ) (r : String) (q : ℚ) : JObj :=
  [("decision", JVal.jstr d), ("percentage", JVal.jint p),
   ("reason", JVal.jstr r), ("expected_next_day_price", JVal.jnum q)]

/-- An empty normalized table (used by concrete runs below). -/
def df0 : DataFrame := ⟨[], [], [], [], [], [], []⟩

/-- An oracle response whose percentage (50) is inconsistent with its
decision (HOLD). -/
def objHOLD : JObj := mkObj "HOLD" 50 "overvalued" 102.345

/-- A concrete environment in which every fetch succeeds and the
oracle answers with the inconsistent HOLD/50 record. -/
def envHOLD : Env :=
  { stock := "AAPL"
    monthly := df0
    daily := df0
    googleFetch := .ok []
    alphaFetch := .ok []
    transcriptFetch := .ok "buy leaders"
    fgiFetch := .ok ⟨50, "Neutral", "2024-01-01T00:00:00"⟩
    priceFetch := .ok 100
    oracleFetch := .ok objHOLD
    translateFetch := .error "offline" }

/-- The environment of `envHOLD` with a failing spot-price fetch. -/
def envPriceDown : Env := { envHOLD with priceFetch := .error "api down" }

/-- The environment of `envHOLD` with a failing sentiment-index
fetch. -/
def envFgiDown : Env := { envHOLD with fgiFetch := .error "fgi down" }

/-- The environment of `envHOLD` with a failing transcript fetch. -/
def envYtDown : Env := { envHOLD with transcriptFetch := .error "no transcript" }

/-- A 20-row close series: nineteen zeros followed by a one.  Its
sample variance (`1/20`) and population variance (`19/400`) differ. -/
def xs20 : List ℚ := List.replicate 19 0 ++ [1]

/-- A normalized table whose close column is `xs20`. -/
def df20 : DataFrame :=
  { dates := List.replicate 20 "d", Open := xs20, Close := xs20, High := xs20,
    Low := xs20, Volume := List.replicate 20 0, indicators := [] }

/-! ### Control-flow lemmas for `ai_stock_analysis` -/

/-- A sentiment-index fetch failure propagates out of the run before
any effect is performed. -/
lemma ai_fgi_error (env : Env) (msg : String) (h : env.fgiFetch = .error msg) :
    ai_stock_analysis env = (.error msg, []) := by
  simp [ai_stock_analysis, get_fear_and_greed_index, h]

/-- A spot-price fetch failure (after a successful sentiment fetch)
returns the 2-tuple `(None, None)` with no effects. -/
lemma ai_price_error (env : Env) (msg : String) (fgi : FGI)
    (hf : env.fgiFetch = .ok fgi) (hp : env.priceFetch = .error msg) :
    ai_stock_analysis env = (.ok [PyValue.pyNone, PyValue.pyNone], []) := by
  simp [ai_stock_analysis, get_fear_and_greed_index, get_current_price, hf, hp]

/-- Whatever the sentiment fetch did, a failed spot-price fetch leaves
the effect trace empty: no oracle call and no ledger write. -/
lemma ai_price_error_trace (env : Env) (msg : String)
    (hp : env.priceFetch = .error msg) :
    (ai_stock_analysis env).2 = [] := by
  cases hfgi : env.fgiFetch with
  | error e => simp [ai_fgi_error env e hfgi]
  | ok fgi => simp [ai_price_error env msg fgi hfgi hp]

/-- The fully successful run: oracle call followed by the ledger
write, returning the 5-tuple. -/
lemma ai_success (env : Env) (fgi : FGI) (p : ℚ) (obj : JObj) (td : TradingDecision)
    (hf : env.fgiFetch = .ok fgi) (hp : env.priceFetch = .ok p)
    (ho : env.oracleFetch = .ok obj) (ht : parseTradingDecision obj = some td) :
    ai_stock_analysis env =
      (.ok [PyValue.pyDecision td,
            PyValue.pyStr (translate_to_korean env.translateFetch td.reason),
            PyValue.pyNews (get_news_from_google env.googleFetch)
              (get_news_from_alpha_vantage env.alphaFetch),
            PyValue.pyFgi fgi, PyValue.pyPrice (round2 p)],
       [Effect.oracleCall
          (buildSystemPrompt (round2 p) (get_youtube_transcript env.transcriptFetch)),
        Effect.ledgerWrite (record_trading_decision env.stock
          { Decision := td.decision, Percentage := td.percentage, Reason := td.reason,
            CurrentPrice := round2 (round2 p),
            ExpectedNextDayPrice := round2 td.expected_next_day_price })]) := by
  simp [ai_stock_analysis, get_fear_and_greed_index, get_current_price, get_news,
    hf, hp, ho, ht]

/-- A structurally well-shaped response object parses successfully
whenever its decision string is in the enum — with no condition at all
on the percentage. -/
lemma parse_mkObj (d : String) (p : ℤ) (r : String) (q : ℚ)
    (hd : decisionEnum.contains d = true) :
    parseTradingDecision (mkObj d p r q) = some ⟨d, p, r, q⟩ := by
  have hmem : d ∈ decisionEnum := by simpa using hd
  simp [parseTradingDecision, mkObj, List.lookup, hmem]

/-- The oracle-fetch-error branch: fatal after the oracle call was
issued, before any ledger write. -/
lemma ai_oracle_error (env : Env) (fgi : FGI) (p : ℚ) (m : String)
    (hf : env.fgiFetch = .ok fgi) (hp : env.priceFetch = .ok p)
    (ho : env.oracleFetch = .error m) :
    ai_stock_analysis env =
      (.error m, [Effect.oracleCall
        (buildSystemPrompt (round2 p) (get_youtube_transcript env.transcriptFetch))]) := by
  simp [ai_stock_analysis, get_fear_and_greed_index, get_current_price, hf, hp, ho]

/-- The schema-validation-failure branch: fatal parse error after the
oracle call, before any ledger write. -/
lemma ai_parse_error (env : Env) (fgi : FGI) (p : ℚ) (obj : JObj)
    (hf : env.fgiFetch = .ok fgi) (hp : env.priceFetch = .ok p)
    (ho : env.oracleFetch = .ok obj) (ht : parseTradingDecision obj = none) :
    ai_stock_analysis env =
      (.error "trading decision validation failed", [Effect.oracleCall
        (buildSystemPrompt (round2 p) (get_youtube_transcript env.transcriptFetch))]) := by
  simp [ai_stock_analysis, get_fear_and_greed_index, get_current_price, hf, hp, ho, ht]

/-- Every ledger write any run performs satisfies the derived-field
equation of `_record_trading_decision`. -/
lemma ledger_invariant (env : Env) (e : LedgerEntry)
    (h : Effect.ledgerWrite e ∈ (ai_stock_analysis env).2) :
    e.expectedPriceDifference = round2 (e.expectedNextDayPrice - e.currentPrice) := by
  rcases hf : env.fgiFetch with m | fgi
  · rw [ai_fgi_error env m hf] at h; simp at h
  · rcases hp : env.priceFetch with m | p
    · rw [ai_price_error env m fgi hf hp] at h; simp at h
    · rcases ho : env.oracleFetch with m | obj
      · rw [ai_oracle_error env fgi p m hf hp ho] at h; simp at h
      · rcases ht : parseTradingDecision obj with _ | td
        · rw [ai_parse_error env fgi p obj hf hp ho ht] at h; simp at h
        · rw [ai_success env fgi p obj td hf hp ho ht] at h
          simp at h
          subst h
          rfl

/-- `roundHalfEven` of an integer is that integer. -/
lemma roundHalfEven_intCast (m : ℤ) : roundHalfEven (m : ℚ) = m := by
  norm_num [roundHalfEven, Int.floor_intCast]

/-- `round2` of a value that is an exact multiple of `1/100`. -/
lemma round2_eval_int (q : ℚ) (m : ℤ) (h : q * 100 = (m : ℚ)) :
    round2 q = (m : ℚ) / 100 := by
  rw [round2, h, roundHalfEven_intCast]

/-- The tie case of `roundHalfEven` at an even floor stays down. -/
lemma roundHalfEven_tie_even (q : ℚ) (f : ℤ) (hf : ⌊q⌋ = f)
    (ht : q - (f : ℚ) = 1/2) (he : f % 2 = 0) : roundHalfEven q = f := by
  simp only [roundHalfEven, hf, ht, he]
  norm_num

/-- `round(102.345, 2)` evaluates to `102.34`: the scaled value
`10234.5` is an exact tie and its floor `10234` is even.  (Python
rounds ties to even; on this input the IEEE double for `102.345` is
moreover slightly below the exact tie, so float evaluation rounds
down as well.) -/
lemma round2_102345 : round2 (102.345 : ℚ) = 102.34 := by
  have h : (102.345 : ℚ) * 100 = 20469/2 := by norm_num
  have hfl : ⌊(20469/2 : ℚ)⌋ = 10234 := by
    rw [Int.floor_eq_iff]
    norm_num
  rw [round2, h, roundHalfEven_tie_even _ 10234 hfl (by norm_num) (by decide)]
  norm_num

/-- `round(100, 2) = 100`. -/
lemma round2_100 : round2 (100 : ℚ) = 100 := by
  rw [round2_eval_int 100 10000 (by norm_num)]
  norm_num

/-- `round(102.34 - 100.0, 2) = 2.34`. -/
lemma round2_diff234 : round2 ((102.34 : ℚ) - 100) = 2.34 := by
  rw [round2_eval_int _ 234 (by norm_num)]
  norm_num

/-! ### Indicator lemmas -/

lemma length_rollingApply (f : List ℚ → ℚ) (w : Nat) (xs : List ℚ) :
    (rollingApply f w xs).length = xs.length := by
  simp [rollingApply]

lemma length_gainSeries (close : List ℚ) : (gainSeries close).length = close.length := by
  simp [gainSeries]

lemma length_lossSeries (close : List ℚ) : (lossSeries close).length = close.length := by
  simp [lossSeries]

lemma length_ewmGo (α y : ℚ) (zs : List ℚ) : (ewmGo α y zs).length = zs.length + 1 := by
  induction zs generalizing y with
  | nil => rfl
  | cons z zs ih => simp [ewmGo, ih]

lemma length_ewmMean (span : Nat) (xs : List ℚ) : (ewmMean span xs).length = xs.length := by
  cases xs with
  | nil => rfl
  | cons x xs => simp [ewmMean, length_ewmGo]

lemma length_macdLine (close : List ℚ) (f s : Nat) :
    (macdLine close f s).length = close.length := by
  simp [macdLine, length_ewmMean]

lemma length_signalLine (close : List ℚ) (f s g : Nat) :
    (signalLine close f s g).length = close.length := by
  simp [signalLine, length_ewmMean, length_macdLine]

lemma length_macdHistogram (close : List ℚ) (f s g : Nat) :
    (macdHistogram close f s g).length = close.length := by
  simp [macdHistogram, length_macdLine, length_signalLine]

lemma length_rsiList (close : List ℚ) (w : Nat) :
    (rsiList close w).length = close.length := by
  simp [rsiList, rollingMean, length_rollingApply, length_gainSeries, length_lossSeries]

/-- The rolling-apply column at row `i`: the window value when at
least `w` observations exist, `NaN` when the window is short, nothing
past the end of the table. -/
lemma rollingApply_getElem? (f : List ℚ → ℚ) (w : Nat) (xs : List ℚ) (i : Nat) :
    (rollingApply f w xs)[i]? =
      if i < xs.length then
        some (if w ≤ i + 1 then some (f (windowAt xs w i)) else none)
      else none := by
  by_cases hi : i < xs.length
  · simp [rollingApply, List.getElem?_map, List.getElem?_range hi, hi]
  · simp [rollingApply, hi]
    omega

/-- The first EMA output is the accumulator. -/
lemma ewmGo_getElem?_zero (α y : ℚ) (zs : List ℚ) : (ewmGo α y zs)[0]? = some y := by
  cases zs <;> simp [ewmGo]

/-- The EMA recursion is seeded with the first observation. -/
lemma ewmMean_head (span : Nat) (x : ℚ) (xs : List ℚ) :
    (ewmMean span (x :: xs))[0]? = some x :=
  ewmGo_getElem?_zero _ x xs

/-- The defining recurrence of the exponentially weighted mean:
each output is `(1 - α) * previous + α * new observation`. -/
lemma ewmGo_rec (α : ℚ) (zs : List ℚ) : ∀ (y : ℚ) (i : Nat) (a b z : ℚ),
    (ewmGo α y zs)[i]? = some a → (ewmGo α y zs)[i + 1]? = some b →
    zs[i]? = some z → b = (1 - α) * a + α * z := by
  induction zs with
  | nil =>
    intro y i a b z _ hb _
    cases i <;> simp [ewmGo] at hb
  | cons z0 zs ih =>
    intro y i a b z ha hb hz
    cases i with
    | zero =>
      rw [ewmGo, List.getElem?_cons_zero, Option.some.injEq] at ha
      rw [ewmGo, List.getElem?_cons_succ, ewmGo_getElem?_zero, Option.some.injEq] at hb
      rw [List.getElem?_cons_zero, Option.some.injEq] at hz
      rw [← ha, ← hb, ← hz]
    | succ j =>
      rw [ewmGo, List.getElem?_cons_succ] at ha
      rw [ewmGo, List.getElem?_cons_succ] at hb
      rw [List.getElem?_cons_succ] at hz
      exact ih _ j a b z ha hb hz

/-- The recurrence at the `ewm(span=s, adjust=False).mean()` level,
with `α = 2 / (span + 1)`. -/
lemma ewmMean_rec (span : Nat) (close : List ℚ) (i : Nat) (a b z : ℚ)
    (ha : (ewmMean span close)[i]? = some a)
    (hb : (ewmMean span close)[i + 1]? = some b)
    (hz : close[i + 1]? = some z) :
    b = (1 - 2 / ((span : ℚ) + 1)) * a + (2 / ((span : ℚ) + 1)) * z := by
  cases close with
  | nil => simp [ewmMean] at ha
  | cons x xs =>
    rw [List.getElem?_cons_succ] at hz
    exact ewmGo_rec _ xs x i a b z ha hb hz

/-- An entry of a pointwise difference of two columns comes from
entries of both columns. -/
lemma zipWith_sub_getElem? (as bs : List ℚ) (i : Nat) (m : ℚ)
    (h : (List.zipWith (fun a b => a - b) as bs)[i]? = some m) :
    ∃ a b, as[i]? = some a ∧ bs[i]? = some b ∧ m = a - b := by
  rw [List.getElem?_zipWith] at h
  cases ha : as[i]? with
  | none => rw [ha] at h; simp at h
  | some a =>
    cases hb : bs[i]? with
    | none => rw [ha, hb] at h; simp at h
    | some b =>
      rw [ha, hb] at h
      simp only [Option.some.injEq] at h
      exact ⟨a, b, rfl, rfl, h.symm⟩

lemma gainSeries_nonneg (close : List ℚ) : ∀ x ∈ gainSeries close, 0 ≤ x := by
  intro x hx
  rw [gainSeries, List.mem_map] at hx
  obtain ⟨i, _, rfl⟩ := hx
  cases i with
  | zero => exact le_refl 0
  | succ j =>
    dsimp only
    split
    · next h => exact le_of_lt h
    · exact le_refl 0

lemma lossSeries_nonneg (close : List ℚ) : ∀ x ∈ lossSeries close, 0 ≤ x := by
  intro x hx
  rw [lossSeries, List.mem_map] at hx
  obtain ⟨i, _, rfl⟩ := hx
  cases i with
  | zero => exact le_refl 0
  | succ j =>
    dsimp only
    split
    · next h => exact neg_nonneg.mpr (le_of_lt h)
    · exact le_refl 0

lemma windowAt_subset (xs : List ℚ) (w i : Nat) : windowAt xs w i ⊆ xs := by
  intro x hx
  exact List.take_subset _ _ (List.drop_subset _ _ hx)

lemma listMean_nonneg (xs : List ℚ) (h : ∀ x ∈ xs, 0 ≤ x) : 0 ≤ listMean xs :=
  div_nonneg (List.sum_nonneg h) (Nat.cast_nonneg _)

/-- A defined rolling-mean entry is the mean of its trailing
window. -/
lemma rollingMean_entry (w : Nat) (xs : List ℚ) (i : Nat) (g : ℚ)
    (h : (rollingMean w xs)[i]? = some (some g)) :
    g = listMean (windowAt xs w i) := by
  rw [rollingMean, rollingApply_getElem?] at h
  split_ifs at h with h1 h2
  all_goals simp only [Option.some.injEq, reduceCtorEq] at h
  exact h.symm

/-- A defined rolling mean of a pointwise nonnegative series is
nonnegative. -/
lemma rollingMean_nonneg_entry (w : Nat) (xs : List ℚ) (i : Nat) (g : ℚ)
    (hx : ∀ x ∈ xs, 0 ≤ x) (h : (rollingMean w xs)[i]? = some (some g)) : 0 ≤ g := by
  rw [rollingMean_entry w xs i g h]
  exact listMean_nonneg _ (fun x hxm => hx x (windowAt_subset xs w i hxm))

/-- The RSI cell at a row where both rolling averages are defined. -/
lemma rsiList_entry (close : List ℚ) (w i : Nat) (g l : ℚ)
    (hg : (rollingMean w (gainSeries close))[i]? = some (some g))
    (hl : (rollingMean w (lossSeries close))[i]? = some (some l)) :
    (rsiList close w)[i]? = some (rsiOfAverages g l) := by
  rw [rsiList, List.getElem?_zipWith, hg, hl]

/-- The gain series of a constant close series is identically zero. -/
lemma gainSeries_replicate (n : Nat) (c : ℚ) :
    gainSeries (List.replicate n c) = List.replicate n 0 := by
  apply List.ext_getElem?
  intro i
  by_cases hi : i < n
  · rw [gainSeries, List.getElem?_map, List.length_replicate,
      List.getElem?_range hi, List.getElem?_replicate, if_pos hi]
    cases i with
    | zero => rfl
    | succ j =>
      have h1 : j + 1 < n := hi
      have h2 : j < n := by omega
      simp [List.getD, List.getElem?_replicate, h1, h2]
  · have h1 : (gainSeries (List.replicate n c)).length ≤ i := by
      rw [length_gainSeries, List.length_replicate]; omega
    have h2 : (List.replicate n (0 : ℚ)).length ≤ i := by
      rw [List.length_replicate]; omega
    rw [List.getElem?_eq_none h1, List.getElem?_eq_none h2]

/-- The loss series of a constant close series is identically zero. -/
lemma lossSeries_replicate (n : Nat) (c : ℚ) :
    lossSeries (List.replicate n c) = List.replicate n 0 := by
  apply List.ext_getElem?
  intro i
  by_cases hi : i < n
  · rw [lossSeries, List.getElem?_map, List.length_replicate,
      List.getElem?_range hi, List.getElem?_replicate, if_pos hi]
    cases i with
    | zero => rfl
    | succ j =>
      have h1 : j + 1 < n := hi
      have h2 : j < n := by omega
      simp [List.getD, List.getElem?_replicate, h1, h2]
  · have h1 : (lossSeries (List.replicate n c)).length ≤ i := by
      rw [length_lossSeries, List.length_replicate]; omega
    have h2 : (List.replicate n (0 : ℚ)).length ≤ i := by
      rw [List.length_replicate]; omega
    rw [List.getElem?_eq_none h1, List.getElem?_eq_none h2]

lemma listMean_replicate_zero (n : Nat) : listMean (List.replicate n (0 : ℚ)) = 0 := by
  simp [listMean]

/-- The rolling mean over the full flat window is a defined zero. -/
lemma rollingMean_replicate_zero :
    (rollingMean 14 (List.replicate 14 (0 : ℚ)))[13]? = some (some 0) := by
  rw [rollingMean, rollingApply_getElem?, List.length_replicate]
  norm_num [windowAt, List.take_replicate, listMean_replicate_zero]

/-! ### Claim theorems -/

/-- **C1, counterexample.**  The oracle response with `decision =
HOLD` and `percentage = 50` — inconsistent according to the claim —
passes schema validation and parsing, the run does not abort, and the
record is passed to the Ledger: the effect trace ends with a ledger
write whose decision is `HOLD` and whose percentage is `50 ≠ 0`. -/
theorem C1_counterexample :
    parseTradingDecision objHOLD =
      some { decision := "HOLD", percentage := 50, reason := "overvalued",
             expected_next_day_price := 102.345 } ∧
    ∃ rr pr e,
      ai_stock_analysis envHOLD = (.ok rr, [Effect.oracleCall pr, Effect.ledgerWrite e]) ∧
        e.decision = "HOLD" ∧ e.percentage = 50 ∧ e.percentage ≠ 0 := by
  have hparse := parse_mkObj "HOLD" 50 "overvalued" 102.345 (by decide)
  refine ⟨hparse, ?_⟩
  have hrun := ai_success envHOLD ⟨50, "Neutral", "2024-01-01T00:00:00"⟩ 100 objHOLD
    _ rfl rfl rfl hparse
  exact ⟨_, _, _, hrun, rfl, rfl, by decide⟩

/-- **C1, amended.**  The enforced response schema checks only
structure: the four required fields, `decision` in the three-value
enum, an integer `percentage`, no additional properties.  It places no
constraint relating `percentage` to `decision`, so any response of
that shape — whatever its percentage — parses successfully, the run
proceeds, and the resulting record is written to the Ledger. -/
theorem C1_thm (env : Env) (d : String) (p : ℤ) (r : String) (q : ℚ) (fgi : FGI) (cp : ℚ)
    (hd : decisionEnum.contains d = true)
    (hf : env.fgiFetch = .ok fgi) (hp : env.priceFetch = .ok cp)
    (ho : env.oracleFetch = .ok (mkObj d p r q)) :
    parseTradingDecision (mkObj d p r q) = some ⟨d, p, r, q⟩ ∧
    ∃ rr pr e,
      ai_stock_analysis env = (.ok rr, [Effect.oracleCall pr, Effect.ledgerWrite e]) ∧
        e.decision = d ∧ e.percentage = p := by
  have hparse := parse_mkObj d p r q hd
  exact ⟨hparse, _, _, _, ai_success env fgi cp _ _ hf hp ho hparse, rfl, rfl⟩

/-- **C1, witness** for the amended theorem at the concrete HOLD/50
environment. -/
theorem C1_thm_witness :
    parseTradingDecision (mkObj "HOLD" 50 "overvalued" 102.345) =
      some ⟨"HOLD", 50, "overvalued", 102.345⟩ ∧
    ∃ rr pr e,
      ai_stock_analysis envHOLD = (.ok rr, [Effect.oracleCall pr, Effect.ledgerWrite e]) ∧
        e.decision = "HOLD" ∧ e.percentage = 50 :=
  C1_thm envHOLD "HOLD" 50 "overvalued" 102.345 ⟨50, "Neutral", "2024-01-01T00:00:00"⟩ 100
    (by decide) rfl rfl rfl

/-- **C3, counterexample.**  At current price `100.00` and expected
next-day price `102.345`, the written row stores
`ExpectedNextDayPrice = 102.34` (not `102.35` as the claim states) and
`ExpectedPriceDifference = 2.34` (not `2.35`): Python `round` sends
the exact tie `102.345` down to the even hundredth, and the IEEE
double nearest `102.345` lies below the tie, so float evaluation
rounds down as well. -/
theorem C3_counterexample :
    (record_trading_decision "AAPL"
        { Decision := "BUY", Percentage := 10, Reason := "r",
          CurrentPrice := round2 100,
          ExpectedNextDayPrice := round2 (102.345 : ℚ) }).currentPrice = 100 ∧
    (record_trading_decision "AAPL"
        { Decision := "BUY", Percentage := 10, Reason := "r",
          CurrentPrice := round2 100,
          ExpectedNextDayPrice := round2 (102.345 : ℚ) }).expectedNextDayPrice = 102.34 ∧
    (102.34 : ℚ) ≠ 102.35 ∧
    (record_trading_decision "AAPL"
        { Decision := "BUY", Percentage := 10, Reason := "r",
          CurrentPrice := round2 100,
          ExpectedNextDayPrice := round2 (102.345 : ℚ) }).expectedPriceDifference = 2.34 ∧
    (2.34 : ℚ) ≠ 2.35 := by
  refine ⟨round2_100, round2_102345, by norm_num, ?_, by norm_num⟩
  show round2 (round2 (102.345 : ℚ) - round2 100) = 2.34
  rw [round2_102345, round2_100, round2_diff234]

/-- **C3, amended.**  Every row written by the ledger-record operation
stores the input current price and expected next-day price rounded to
2 decimals, and its `ExpectedPriceDifference` equals
`round(ExpectedNextDayPrice - CurrentPrice, 2)` over those stored
values — this also holds for every ledger write any run of
`ai_stock_analysis` performs.  In the concrete scenario with current
price `100.00` and expected next-day price `102.345`, the stored
values are `100.00`, `102.34` and `2.34` (the claim said `102.35` and
`2.35`). -/
theorem C3_thm (stock dec : String) (pct : ℤ) (rsn : String) (cp enp : ℚ) :
    ((record_trading_decision stock
        { Decision := dec, Percentage := pct, Reason := rsn,
          CurrentPrice := round2 cp, ExpectedNextDayPrice := round2 enp }).currentPrice
        = round2 cp ∧
     (record_trading_decision stock
        { Decision := dec, Percentage := pct, Reason := rsn,
          CurrentPrice := round2 cp, ExpectedNextDayPrice := round2 enp }).expectedNextDayPrice
        = round2 enp ∧
     (record_trading_decision stock
        { Decision := dec, Percentage := pct, Reason := rsn,
          CurrentPrice := round2 cp, ExpectedNextDayPrice := round2 enp }).expectedPriceDifference
        = round2 (round2 enp - round2 cp)) ∧
    (∀ env e, Effect.ledgerWrite e ∈ (ai_stock_analysis env).2 →
      e.expectedPriceDifference = round2 (e.expectedNextDayPrice - e.currentPrice)) ∧
    (round2 (100 : ℚ) = 100 ∧ round2 (102.345 : ℚ) = 102.34 ∧
      round2 (round2 (102.345 : ℚ) - round2 (100 : ℚ)) = 2.34) := by
  refine ⟨⟨rfl, rfl, rfl⟩, ledger_invariant, round2_100, round2_102345, ?_⟩
  rw [round2_102345, round2_100, round2_diff234]

/-- **C3, witness** for the amended theorem: the scenario values at
the concrete inputs, and the derived-field equation at the concrete
ledger write of the HOLD/50 run. -/
theorem C3_thm_witness :
    (record_trading_decision "AAPL"
        { Decision := "BUY", Percentage := 10, Reason := "r",
          CurrentPrice := round2 100,
          ExpectedNextDayPrice := round2 (102.345 : ℚ) }).expectedPriceDifference
      = round2 (round2 (102.345 : ℚ) - round2 100) ∧
    round2 (102.345 : ℚ) = 102.34 ∧
    ∃ e, Effect.ledgerWrite e ∈ (ai_stock_analysis envHOLD).2 ∧
      e.expectedPriceDifference = round2 (e.expectedNextDayPrice - e.currentPrice) := by
  have h := C3_thm "AAPL" "BUY" 10 "r" 100 102.345
  refine ⟨h.1.2.2, h.2.2.2.1, ?_⟩
  have hmem : Effect.ledgerWrite (record_trading_decision "AAPL"
      { Decision := "HOLD", Percentage := 50, Reason := "overvalued",
        CurrentPrice := round2 (round2 100),
        ExpectedNextDayPrice := round2 (102.345 : ℚ) }) ∈ (ai_stock_analysis envHOLD).2 := by
    rw [ai_success envHOLD ⟨50, "Neutral", "2024-01-01T00:00:00"⟩ 100 objHOLD
      ⟨"HOLD", 50, "overvalued", 102.345⟩ rfl rfl rfl
      (parse_mkObj "HOLD" 50 "overvalued" 102.345 (by decide))]
    simp
    rfl
  exact ⟨_, hmem, h.2.1 envHOLD _ hmem⟩

lemma sampleVar_nonneg (xs : List ℚ) : 0 ≤ sampleVar xs := by
  cases xs with
  | nil => simp [sampleVar, listMean]
  | cons x l =>
    apply div_nonneg
    · apply List.sum_nonneg
      intro y hy
      obtain ⟨z, _, rfl⟩ := List.mem_map.mp hy
      positivity
    · have h1 : (1 : ℚ) ≤ ((x :: l).length : ℚ) := by
        have : 1 ≤ (x :: l).length := by simp
        exact_mod_cast this
      linarith

lemma xs20_mean : listMean xs20 = 1/20 := by
  simp [xs20, listMean, List.sum_append, List.sum_replicate]

lemma xs20_sampleVar : sampleVar xs20 = 1/20 := by
  rw [sampleVar, xs20_mean]
  rw [show xs20 = List.replicate 19 0 ++ [1] from rfl]
  simp [List.map_append, List.map_replicate, List.sum_append, List.sum_replicate,
    nsmul_eq_mul]
  norm_num

lemma xs20_popVar : popVar xs20 = 19/400 := by
  rw [popVar, xs20_mean]
  rw [show xs20 = List.replicate 19 0 ++ [1] from rfl]
  simp [List.map_append, List.map_replicate, List.sum_append, List.sum_replicate,
    nsmul_eq_mul]
  norm_num

/-- **C2, counterexample.**  On the close series `xs20` (nineteen
zeros then a one), the code's STD cell at the first full-window row is
`√(sampleVar xs20) = √(1/20)` — pandas `rolling.std()` uses the
Bessel-corrected sample variance (`ddof = 1`) — whereas the
population-style standard deviation of the same window is
`√(popVar xs20) = √(19/400)`, a different real number.  The claim that
STD is the population-style rolling standard deviation is therefore
false. -/
theorem C2_counterexample :
    sampleVar xs20 = 1/20 ∧ popVar xs20 = 19/400 ∧
    (∃ col, (calculate_bollinger_bands df20).indicators.lookup "STD" = some col ∧
      col[19]? = some (CellVal.qsqrt 0 1 (1/20))) ∧
    Real.sqrt (1/20) ≠ Real.sqrt (19/400) := by
  refine ⟨xs20_sampleVar, xs20_popVar, ?_, ?_⟩
  · have hl : (calculate_bollinger_bands df20).indicators.lookup "STD" =
        some ((List.range df20.Close.length).map (fun i =>
          if 20 ≤ i + 1 then CellVal.qsqrt 0 1 (sampleVar (windowAt df20.Close 20 i))
          else CellVal.undef)) := by
      simp [calculate_bollinger_bands, List.lookup]
    refine ⟨_, hl, ?_⟩
    have hlen : df20.Close.length = 20 := rfl
    have hwin : windowAt df20.Close 20 19 = xs20 := by
      simp [windowAt, df20]
      decide
    rw [List.getElem?_map, List.getElem?_range (by rw [hlen]; omega)]
    simp only [Option.map_some']
    rw [if_pos (by omega), hwin, xs20_sampleVar]
  · have h : Real.sqrt (19/400) < Real.sqrt (1/20) :=
      Real.sqrt_lt_sqrt (by norm_num) (by norm_num)
    exact (ne_of_gt h)

/-- **C2, amended.**  For every table and every row with at least 20
periods of history, the appended Bollinger columns hold: SMA = the
20-period rolling mean of Close; STD = the 20-period *sample*
(`ddof = 1`, Bessel-corrected — not population) rolling standard
deviation, i.e. the nonnegative square root of `sampleVar`;
Upper_Band = SMA + 2·STD and Lower_Band = SMA − 2·STD (cells
`qsqrt m c v` denote `m + c·√v`). -/
theorem C2_thm (df : DataFrame) (i : Nat) (hw : 20 ≤ i + 1) (hi : i < df.Close.length) :
    ∃ smaCol stdCol upCol loCol,
      (calculate_bollinger_bands df).indicators =
        df.indicators ++ [("SMA", smaCol), ("STD", stdCol),
                          ("Upper_Band", upCol), ("Lower_Band", loCol)] ∧
      smaCol[i]? = some (CellVal.q (listMean (windowAt df.Close 20 i))) ∧
      stdCol[i]? = some (CellVal.qsqrt 0 1 (sampleVar (windowAt df.Close 20 i))) ∧
      upCol[i]? = some (CellVal.qsqrt (listMean (windowAt df.Close 20 i)) 2
        (sampleVar (windowAt df.Close 20 i))) ∧
      loCol[i]? = some (CellVal.qsqrt (listMean (windowAt df.Close 20 i)) (-2)
        (sampleVar (windowAt df.Close 20 i))) ∧
      0 ≤ sampleVar (windowAt df.Close 20 i) ∧
      Real.sqrt (sampleVar (windowAt df.Close 20 i)) ^ 2
        = ((sampleVar (windowAt df.Close 20 i) : ℚ) : ℝ) := by
  refine ⟨_, _, _, _, rfl, ?_, ?_, ?_, ?_, sampleVar_nonneg _, ?_⟩
  · rw [List.getElem?_map, rollingMean, rollingApply_getElem?, if_pos hi, if_pos hw]
    rfl
  · simp [List.getElem?_map, List.getElem?_range hi, hw]
    omega
  · simp [List.getElem?_map, List.getElem?_range hi, hw]
    omega
  · simp [List.getElem?_map, List.getElem?_range hi, hw]
    omega
  · exact Real.sq_sqrt (by exact_mod_cast sampleVar_nonneg _)

/-- **C2, witness** for the amended theorem at the concrete table
`df20` and its first full-window row. -/
theorem C2_thm_witness :
    ∃ smaCol stdCol upCol loCol,
      (calculate_bollinger_bands df20).indicators =
        df20.indicators ++ [("SMA", smaCol), ("STD", stdCol),
                            ("Upper_Band", upCol), ("Lower_Band", loCol)] ∧
      smaCol[19]? = some (CellVal.q (listMean (windowAt df20.Close 20 19))) ∧
      stdCol[19]? = some (CellVal.qsqrt 0 1 (sampleVar (windowAt df20.Close 20 19))) ∧
      upCol[19]? = some (CellVal.qsqrt (listMean (windowAt df20.Close 20 19)) 2
        (sampleVar (windowAt df20.Close 20 19))) ∧
      loCol[19]? = some (CellVal.qsqrt (listMean (windowAt df20.Close 20 19)) (-2)
        (sampleVar (windowAt df20.Close 20 19))) ∧
      0 ≤ sampleVar (windowAt df20.Close 20 19) ∧
      Real.sqrt (sampleVar (windowAt df20.Close 20 19)) ^ 2
        = ((sampleVar (windowAt df20.Close 20 19) : ℚ) : ℝ) :=
  C2_thm df20 19 (by omega) (by decide)

/-- **C4, counterexample.**  On a constant close series of 14 equal
prices, both 14-period rolling averages are defined (each is `0`), yet
the RSI cell is `NaN` (undefined): `rs = 0/0` propagates, so the RSI
is neither a value of `[0, 100]` nor the deterministic defined output
the claim asserts for `avg_loss = 0`. -/
theorem C4_counterexample :
    (rollingMean 14 (gainSeries (List.replicate 14 (100 : ℚ))))[13]? = some (some 0) ∧
    (rollingMean 14 (lossSeries (List.replicate 14 (100 : ℚ))))[13]? = some (some 0) ∧
    (rsiList (List.replicate 14 (100 : ℚ)) 14)[13]? = some none := by
  have hg : (rollingMean 14 (gainSeries (List.replicate 14 (100 : ℚ))))[13]? = some (some 0) := by
    rw [gainSeries_replicate]
    exact rollingMean_replicate_zero
  have hl : (rollingMean 14 (lossSeries (List.replicate 14 (100 : ℚ))))[13]? = some (some 0) := by
    rw [lossSeries_replicate]
    exact rollingMean_replicate_zero
  refine ⟨hg, hl, ?_⟩
  rw [rsiList_entry _ 14 13 0 0 hg hl]
  norm_num [rsiOfAverages]

/-- **C4, amended.**  At every row where the RSI itself is defined it
lies in `[0, 100]`; when the average loss is `0` and the average gain
is positive the output is exactly `100` (the IEEE `rs = +inf` path);
but when the average gain and average loss are both `0` (a flat
window) the cell is `NaN` — the undefined value propagates, contrary
to the claim. -/
theorem C4_thm (close : List ℚ) (w i : Nat) (g l : ℚ)
    (hg : (rollingMean w (gainSeries close))[i]? = some (some g))
    (hl : (rollingMean w (lossSeries close))[i]? = some (some l)) :
    (0 < l ∨ 0 < g → ∃ q, (rsiList close w)[i]? = some (some q) ∧ 0 ≤ q ∧ q ≤ 100) ∧
    (l = 0 → 0 < g → (rsiList close w)[i]? = some (some 100)) ∧
    (l = 0 → g = 0 → (rsiList close w)[i]? = some none) := by
  have hg0 : 0 ≤ g := rollingMean_nonneg_entry w _ i g (gainSeries_nonneg close) hg
  have hl0 : 0 ≤ l := rollingMean_nonneg_entry w _ i l (lossSeries_nonneg close) hl
  have hr : (rsiList close w)[i]? = some (rsiOfAverages g l) := rsiList_entry close w i g l hg hl
  refine ⟨?_, ?_, ?_⟩
  · intro hpos
    rcases eq_or_lt_of_le hl0 with hl0' | hlpos
    · have hgpos : 0 < g := by
        rcases hpos with hcase | hcase
        · exact absurd hcase (by rw [← hl0']; exact lt_irrefl 0)
        · exact hcase
      refine ⟨100, ?_, by norm_num, by norm_num⟩
      rw [hr]
      simp only [rsiOfAverages]
      rw [if_neg (by rw [← hl0']; exact lt_irrefl 0), if_pos hgpos]
    · have h1 : (0 : ℚ) ≤ g / l := div_nonneg hg0 (le_of_lt hlpos)
      have h2 : (1 : ℚ) ≤ 1 + g / l := by linarith
      have h3 : 100 / (1 + g / l) ≤ 100 := div_le_self (by norm_num) h2
      have h4 : (0 : ℚ) < 100 / (1 + g / l) := div_pos (by norm_num) (by linarith)
      refine ⟨100 - 100 / (1 + g / l), ?_, by linarith, by linarith⟩
      rw [hr]
      simp only [rsiOfAverages]
      rw [if_pos hlpos]
  · intro hl' hgpos
    rw [hr]
    simp only [rsiOfAverages]
    rw [if_neg (by rw [hl']; exact lt_irrefl 0), if_pos hgpos]
  · intro hl' hg'
    rw [hr]
    simp only [rsiOfAverages]
    rw [if_neg (by rw [hl']; exact lt_irrefl 0), if_neg (by rw [hg']; exact lt_irrefl 0)]

/-- **C4, witness** for the amended theorem at the rising close series
`[4, 5]` with window 1: average gain `1`, average loss `0`, so the RSI
is defined, equal to `100`, and within `[0, 100]`. -/
theorem C4_thm_witness :
    (∃ q, (rsiList [4, 5] 1)[1]? = some (some q) ∧ 0 ≤ q ∧ q ≤ 100) ∧
    (rsiList [4, 5] 1)[1]? = some (some 100) := by
  have hg : (rollingMean 1 (gainSeries [4, 5]))[1]? = some (some 1) := by
    rw [rollingMean, rollingApply_getElem?, length_gainSeries]
    norm_num [windowAt, gainSeries, listMean, show List.range 2 = [0, 1] from rfl]
  have hl : (rollingMean 1 (lossSeries [4, 5]))[1]? = some (some 0) := by
    rw [rollingMean, rollingApply_getElem?, length_lossSeries]
    norm_num [windowAt, lossSeries, listMean, show List.range 2 = [0, 1] from rfl]
  have h := C4_thm [4, 5] 1 1 1 0 hg hl
  exact ⟨h.1 (Or.inr one_pos), h.2.1 rfl one_pos⟩

/-- **C5.**  The MACD line is the pointwise difference of the
span-12 and span-26 EMAs; each EMA is computed by the
`adjust=False` recursion `y = (1 - α) * y + α * x` with
`α = 2 / (span + 1)`, seeded with the first observation (not a simple
average); the signal line is the span-9 EMA of the MACD line; and the
histogram equals MACD minus signal exactly at every row where both are
defined. -/
theorem C5_thm :
    (∀ span (x : ℚ) xs, (ewmMean span (x :: xs))[0]? = some x) ∧
    (∀ span (close : List ℚ) (i : Nat) (a b z : ℚ), (ewmMean span close)[i]? = some a →
      (ewmMean span close)[i + 1]? = some b → close[i + 1]? = some z →
      b = (1 - 2 / ((span : ℚ) + 1)) * a + (2 / ((span : ℚ) + 1)) * z) ∧
    (∀ (close : List ℚ) (i : Nat) (m : ℚ), (macdLine close 12 26)[i]? = some m →
      ∃ a b, (ewmMean 12 close)[i]? = some a ∧ (ewmMean 26 close)[i]? = some b ∧ m = a - b) ∧
    (∀ close : List ℚ, signalLine close 12 26 9 = ewmMean 9 (macdLine close 12 26)) ∧
    (∀ (close : List ℚ) (i : Nat) (hv : ℚ), (macdHistogram close 12 26 9)[i]? = some hv →
      ∃ m s : ℚ, (macdLine close 12 26)[i]? = some m ∧
        (signalLine close 12 26 9)[i]? = some s ∧ hv = m - s) :=
  ⟨fun span x xs => ewmMean_head span x xs,
   fun span close i a b z => ewmMean_rec span close i a b z,
   fun _ i m h => zipWith_sub_getElem? _ _ i m h,
   fun _ => rfl,
   fun _ i h hh => zipWith_sub_getElem? _ _ i h hh⟩

/-- **C5, witness**: the seeding, recurrence, MACD difference, signal
definition and histogram identity at the concrete close series
`[5, 7]`. -/
theorem C5_witness :
    (ewmMean 12 (5 :: [7]))[0]? = some 5 ∧
    (69/13 : ℚ) = (1 - 2 / ((12 : ℚ) + 1)) * 5 + (2 / ((12 : ℚ) + 1)) * 7 ∧
    (∃ a b, (ewmMean 12 [5, 7])[0]? = some a ∧ (ewmMean 26 [5, 7])[0]? = some b ∧
      (0 : ℚ) = a - b) ∧
    signalLine [5, 7] 12 26 9 = ewmMean 9 (macdLine [5, 7] 12 26) ∧
    (∃ m s, (macdLine [5, 7] 12 26)[0]? = some m ∧ (signalLine [5, 7] 12 26 9)[0]? = some s ∧
      (0 : ℚ) = m - s) :=
  ⟨C5_thm.1 12 5 [7],
   C5_thm.2.1 12 [5, 7] 0 5 (69/13)
     7 (by norm_num [ewmMean, ewmGo]) (by norm_num [ewmMean, ewmGo]) (by norm_num),
   C5_thm.2.2.1 [5, 7] 0 0 (by norm_num [macdLine, ewmMean, ewmGo]),
   C5_thm.2.2.2.1 [5, 7],
   C5_thm.2.2.2.2 [5, 7] 0 0
     (by norm_num [macdHistogram, macdLine, signalLine, ewmMean, ewmGo])⟩

/-- **C6.**  When the spot-price fetch fails, the run performs no
oracle call and no ledger write (the effect trace is empty, whatever
the other fetches did), and — when the run reached the price check —
returns the 2-tuple `(None, None)`. -/
theorem C6_thm (env : Env) (msg : String) (hp : env.priceFetch = .error msg) :
    (ai_stock_analysis env).2 = [] ∧
    ∀ fgi, env.fgiFetch = .ok fgi →
      ai_stock_analysis env = (.ok [PyValue.pyNone, PyValue.pyNone], []) :=
  ⟨ai_price_error_trace env msg hp, fun fgi hf => ai_price_error env msg fgi hf hp⟩

/-- **C6, witness** at the concrete environment with a failed price
fetch. -/
theorem C6_witness :
    (ai_stock_analysis envPriceDown).2 = [] ∧
    ∀ fgi, envPriceDown.fgiFetch = .ok fgi →
      ai_stock_analysis envPriceDown = (.ok [PyValue.pyNone, PyValue.pyNone], []) :=
  C6_thm envPriceDown "api down" rfl

/-- **C7.**  A sentiment-index fetch failure is not caught by any
guard: the error propagates out of `ai_stock_analysis` unchanged (and
before any effect), while a failure of either headline source is
caught and replaced by an empty list. -/
theorem C7_thm (env : Env) (msg : String) (hf : env.fgiFetch = .error msg) :
    ai_stock_analysis env = (.error msg, []) ∧
    ∀ m, get_news_from_google (.error m) = [] ∧ get_news_from_alpha_vantage (.error m) = [] :=
  ⟨ai_fgi_error env msg hf, fun _ => ⟨rfl, rfl⟩⟩

/-- **C7, witness** at the concrete environment with a failed
sentiment fetch. -/
theorem C7_witness :
    ai_stock_analysis envFgiDown = (.error "fgi down", []) ∧
    ∀ m, get_news_from_google (.error m) = [] ∧ get_news_from_alpha_vantage (.error m) = [] :=
  C7_thm envFgiDown "fgi down" rfl

/-- **C8.**  The Indicator Engine preserves the timestamp index (hence
row count and order) and all five original columns of both tables
unchanged; it only appends indicator columns, each aligned 1:1 with
the rows (same length as the index), in a fixed order: 13 columns on
the monthly table, 10 on the daily table. -/
theorem C8_thm (m d : DataFrame)
    (hm : m.Close.length = m.dates.length) (hd : d.Close.length = d.dates.length) :
    ((add_indicators m d).1.dates = m.dates ∧ (add_indicators m d).1.Open = m.Open ∧
     (add_indicators m d).1.Close = m.Close ∧ (add_indicators m d).1.High = m.High ∧
     (add_indicators m d).1.Low = m.Low ∧ (add_indicators m d).1.Volume = m.Volume) ∧
    ((add_indicators m d).2.dates = d.dates ∧ (add_indicators m d).2.Open = d.Open ∧
     (add_indicators m d).2.Close = d.Close ∧ (add_indicators m d).2.High = d.High ∧
     (add_indicators m d).2.Low = d.Low ∧ (add_indicators m d).2.Volume = d.Volume) ∧
    (∃ cols, (add_indicators m d).1.indicators = m.indicators ++ cols ∧
      cols.map Prod.fst = ["SMA", "STD", "Upper_Band", "Lower_Band", "RSI",
        "EMA_fast", "EMA_slow", "MACD", "Signal_Line", "MACD_Histogram",
        "MA_10", "MA_20", "MA_60"] ∧
      ∀ c ∈ cols, c.2.length = m.dates.length) ∧
    (∃ cols, (add_indicators m d).2.indicators = d.indicators ++ cols ∧
      cols.map Prod.fst = ["SMA", "STD", "Upper_Band", "Lower_Band", "RSI",
        "EMA_fast", "EMA_slow", "MACD", "Signal_Line", "MACD_Histogram"] ∧
      ∀ c ∈ cols, c.2.length = d.dates.length) := by
  refine ⟨⟨rfl, rfl, rfl, rfl, rfl, rfl⟩, ⟨rfl, rfl, rfl, rfl, rfl, rfl⟩, ?_, ?_⟩
  · refine ⟨_, by simp only [add_indicators, calculate_bollinger_bands, calculate_rsi,
      calculate_macd, calculate_moving_averages, List.append_assoc]; rfl, ?_, ?_⟩
    · simp [add_indicators, calculate_bollinger_bands, calculate_rsi,
        calculate_macd, calculate_moving_averages]
    · simp [List.forall_mem_append, List.forall_mem_cons, rollingMean,
        length_rollingApply, length_rsiList, length_ewmMean,
        length_macdLine, length_signalLine, length_macdHistogram, hm]
  · refine ⟨_, by simp only [add_indicators, calculate_bollinger_bands, calculate_rsi,
      calculate_macd, List.append_assoc]; rfl, ?_, ?_⟩
    · simp [add_indicators, calculate_bollinger_bands, calculate_rsi, calculate_macd]
    · simp [List.forall_mem_append, List.forall_mem_cons, rollingMean,
        length_rollingApply, length_rsiList, length_ewmMean,
        length_macdLine, length_signalLine, length_macdHistogram, hd]

/-- **C8, witness** at the empty tables. -/
theorem C8_witness :
    ((add_indicators df0 df0).1.dates = df0.dates ∧ (add_indicators df0 df0).1.Open = df0.Open ∧
     (add_indicators df0 df0).1.Close = df0.Close ∧ (add_indicators df0 df0).1.High = df0.High ∧
     (add_indicators df0 df0).1.Low = df0.Low ∧ (add_indicators df0 df0).1.Volume = df0.Volume) ∧
    ((add_indicators df0 df0).2.dates = df0.dates ∧ (add_indicators df0 df0).2.Open = df0.Open ∧
     (add_indicators df0 df0).2.Close = df0.Close ∧ (add_indicators df0 df0).2.High = df0.High ∧
     (add_indicators df0 df0).2.Low = df0.Low ∧ (add_indicators df0 df0).2.Volume = df0.Volume) ∧
    (∃ cols, (add_indicators df0 df0).1.indicators = df0.indicators ++ cols ∧
      cols.map Prod.fst = ["SMA", "STD", "Upper_Band", "Lower_Band", "RSI",
        "EMA_fast", "EMA_slow", "MACD", "Signal_Line", "MACD_Histogram",
        "MA_10", "MA_20", "MA_60"] ∧
      ∀ c ∈ cols, c.2.length = df0.dates.length) ∧
    (∃ cols, (add_indicators df0 df0).2.indicators = df0.indicators ++ cols ∧
      cols.map Prod.fst = ["SMA", "STD", "Upper_Band", "Lower_Band", "RSI",
        "EMA_fast", "EMA_slow", "MACD", "Signal_Line", "MACD_Histogram"] ∧
      ∀ c ∈ cols, c.2.length = df0.dates.length) :=
  C8_thm df0 df0 rfl rfl

/-- **C9.**  The result shape of `ai_stock_analysis` is inconsistent:
the price-failure path returns a 2-tuple, the success path a 5-tuple,
and the five-name unpacking of `process_trading` raises (returns
`none`) on the failure-path value. -/
theorem C9_thm :
    (∀ env msg fgi, env.fgiFetch = .ok fgi → env.priceFetch = .error msg →
      ∃ rr, (ai_stock_analysis env).1 = .ok rr ∧ rr.length = 2 ∧ unpack5 rr = none) ∧
    (∀ env fgi p obj td, env.fgiFetch = .ok fgi → env.priceFetch = .ok p →
      env.oracleFetch = .ok obj → parseTradingDecision obj = some td →
      ∃ rr, (ai_stock_analysis env).1 = .ok rr ∧ rr.length = 5 ∧ ∃ t, unpack5 rr = some t) := by
  constructor
  · intro env msg fgi hf hp
    exact ⟨[PyValue.pyNone, PyValue.pyNone],
      by rw [ai_price_error env msg fgi hf hp], rfl, rfl⟩
  · intro env fgi p obj td hf hp ho ht
    exact ⟨[PyValue.pyDecision td,
            PyValue.pyStr (translate_to_korean env.translateFetch td.reason),
            PyValue.pyNews (get_news_from_google env.googleFetch)
              (get_news_from_alpha_vantage env.alphaFetch),
            PyValue.pyFgi fgi, PyValue.pyPrice (round2 p)],
      by rw [ai_success env fgi p obj td hf hp ho ht], rfl, _, rfl⟩

/-- **C9, witness**: the failure shape at the price-down environment
and the success shape at the HOLD/50 environment. -/
theorem C9_witness :
    (∃ rr, (ai_stock_analysis envPriceDown).1 = .ok rr ∧ rr.length = 2 ∧ unpack5 rr = none) ∧
    (∃ rr, (ai_stock_analysis envHOLD).1 = .ok rr ∧ rr.length = 5 ∧ ∃ t, unpack5 rr = some t) :=
  ⟨C9_thm.1 envPriceDown "api down" ⟨50, "Neutral", "2024-01-01T00:00:00"⟩ rfl rfl,
   C9_thm.2 envHOLD ⟨50, "Neutral", "2024-01-01T00:00:00"⟩ 100 objHOLD _ rfl rfl rfl
     (parse_mkObj "HOLD" 50 "overvalued" 102.345 (by decide))⟩

/-- **C10.**  When the transcript fetch fails, the run is not
aborted: `get_youtube_transcript` returns the error text
`An error occurred: ` followed by the message, and the system prompt
of the oracle call that the run still performs embeds that error text
verbatim in the place of the trading-methodology text. -/
theorem C10_thm (env : Env) (msg : String) (fgi : FGI) (p : ℚ) (obj : JObj)
    (td : TradingDecision)
    (hyt : env.transcriptFetch = .error msg)
    (hf : env.fgiFetch = .ok fgi) (hp : env.priceFetch = .ok p)
    (ho : env.oracleFetch = .ok obj) (ht : parseTradingDecision obj = some td) :
    get_youtube_transcript env.transcriptFetch = "An error occurred: " ++ msg ∧
    ∃ rr pre post e,
      ai_stock_analysis env =
        (.ok rr, [Effect.oracleCall (pre ++ ("An error occurred: " ++ msg) ++ post),
                  Effect.ledgerWrite e]) ∧ rr.length = 5 := by
  have h1 : get_youtube_transcript env.transcriptFetch = "An error occurred: " ++ msg := by
    rw [hyt]; rfl
  refine ⟨h1,
    [PyValue.pyDecision td,
     PyValue.pyStr (translate_to_korean env.translateFetch td.reason),
     PyValue.pyNews (get_news_from_google env.googleFetch)
       (get_news_from_alpha_vantage env.alphaFetch),
     PyValue.pyFgi fgi, PyValue.pyPrice (round2 p)],
    promptIntro (round2 p), promptTail,
    record_trading_decision env.stock
      { Decision := td.decision, Percentage := td.percentage, Reason := td.reason,
        CurrentPrice := round2 (round2 p),
        ExpectedNextDayPrice := round2 td.expected_next_day_price },
    ?_, rfl⟩
  rw [ai_success env fgi p obj td hf hp ho ht]
  simp [buildSystemPrompt, h1]

/-- **C10, witness** at the concrete environment with a failed
transcript fetch. -/
theorem C10_witness :
    get_youtube_transcript envYtDown.transcriptFetch = "An error occurred: " ++ "no transcript" ∧
    ∃ rr pre post e,
      ai_stock_analysis envYtDown =
        (.ok rr, [Effect.oracleCall (pre ++ ("An error occurred: " ++ "no transcript") ++ post),
                  Effect.ledgerWrite e]) ∧ rr.length = 5 :=
  C10_thm envYtDown "no transcript" ⟨50, "Neutral", "2024-01-01T00:00:00"⟩ 100 objHOLD _
    rfl rfl rfl rfl (parse_mkObj "HOLD" 50 "overvalued" 102.345 (by decide))

end Robinhood
